import Mathlib

set_option maxHeartbeats 2000000

/- Shallow embedding of the document validation pipeline from
   content_validation.py, authenticity_validation.py and AI_supervisor.py.
   Python dictionaries and JSON values are modelled by the Json inductive;
   strings are manipulated through their character lists so that every
   operation is kernel computable.  External collaborators scoped out by the
   design (the filesystem, the pypdfium2 inspector, the OCR extractor, the
   LLM endpoint, the json.loads parser and the Hijri calendar converter)
   enter as explicit parameters describing their observable outcome.
   Python exceptions are modelled with Except: Except.error is a raised
   exception, Except.ok a normal return. -/

/-- Python value universe for the loosely typed dictionaries the pipeline
passes around: JSON values and Python None, bool, int, str, list, dict. -/
inductive Json where
  | null
  | bool (b : Bool)
  | num (n : Int)
  | str (s : String)
  | arr (elems : List Json)
  | obj (entries : List (String × Json))

/-- Dictionary field access: some value when the receiver is a dict that
binds the key, none otherwise.  Call sites of Python .get that can receive
a non-dict are modelled explicitly at those call sites. -/
def Json.lookup : Json → String → Option Json
  | .obj entries, k => (entries.find? (fun p => p.1 == k)).map (fun p => p.2)
  | _, _ => none

/-- Python dict.get(key, default): the bound value when present (even when
that value is None), the default otherwise. -/
def Json.getD (j : Json) (k : String) (d : Json) : Json :=
  (j.lookup k).getD d

/-- Python truthiness of a value, as used by `and` chains in decision_node:
None, False, 0, empty string, empty list and empty dict are falsy. -/
def Json.truthy : Json → Bool
  | .null => false
  | .bool b => b
  | .num n => decide (n ≠ 0)
  | .str s => !s.isEmpty
  | .arr elems => !elems.isEmpty
  | .obj entries => !entries.isEmpty

/-- Test that a value is the given string, modelling Python == between a
dictionary field and a string literal. -/
def Json.isStr (j : Json) (s : String) : Bool :=
  match j with
  | .str t => t == s
  | _ => false

/-- Python str() rendering as interpolated into f-strings.  Only scalar
values ever reach the interpolation sites of this program; container
rendering is abbreviated. -/
def Json.pyStr : Json → String
  | .null => "None"
  | .bool true => "True"
  | .bool false => "False"
  | .num n => toString n
  | .str s => s
  | .arr _ => "<list>"
  | .obj _ => "<dict>"

/-- Python type name of a value, used for AttributeError descriptions. -/
def pyTypeName : Json → String
  | .null => "NoneType"
  | .bool _ => "bool"
  | .num _ => "int"
  | .str _ => "str"
  | .arr _ => "list"
  | .obj _ => "dict"

/-- Description of the AttributeError raised when .get is called on a
non-dict value; the quoting of the exact CPython message is abbreviated. -/
def attributeErrorText (j : Json) : String :=
  pyTypeName j ++ " object has no attribute get"

/-- String field extraction helper for stating properties about verdict
dictionaries: the field value when it is a string, none otherwise. -/
def fieldStr (v : Json) (k : String) : Option String :=
  match v.getD k .null with
  | .str s => some s
  | _ => none

/-- Lexicographic comparison of character lists by code point, the order
Python uses to compare strings (and hence same-directory paths). -/
def listLeB : List Char → List Char → Bool
  | [], _ => true
  | _ :: _, [] => false
  | a :: as, b :: bs => if a.toNat = b.toNat then listLeB as bs else decide (a.toNat < b.toNat)

/-- Python string ordering as a relation, used by sorted(). -/
def strLe (a b : String) : Prop := listLeB a.data b.data = true

instance strLeDecidable : DecidableRel strLe :=
  fun a b => inferInstanceAs (Decidable (listLeB a.data b.data = true))

/-- Python str.strip(): remove leading and trailing whitespace. -/
def pyStrip (s : String) : String :=
  String.mk (((s.data.dropWhile Char.isWhitespace).reverse.dropWhile Char.isWhitespace).reverse)

/-- Uppercase an ASCII letter, as Python str.upper() acts on the letters
appearing in the status strings of this program. -/
def asciiUpperChar (c : Char) : Char :=
  if 97 ≤ c.toNat && c.toNat ≤ 122 then Char.ofNat (c.toNat - 32) else c

/-- Python str.upper() on the ASCII status strings of this program. -/
def pyUpper (s : String) : String :=
  String.mk (s.data.map asciiUpperChar)

/-- Python str.endswith(pat). -/
def pyEndsWith (s pat : String) : Bool :=
  pat.data.isSuffixOf s.data

/-- Replacement of every non-overlapping occurrence of pat (scanning left
to right) by rep, the semantics of Python str.replace; fuel bounds the
recursion and is instantiated with the length of the subject string, which
suffices because every step consumes at least one character. -/
def replaceFrom : Nat → List Char → List Char → List Char → List Char
  | 0, s, _, _ => s
  | _, [], _, _ => []
  | fuel + 1, c :: rest, pat, rep =>
    if pat.isPrefixOf (c :: rest) && !pat.isEmpty then
      rep ++ replaceFrom fuel (List.drop pat.length (c :: rest)) pat rep
    else
      c :: replaceFrom fuel rest pat rep

/-- Python str.replace(pat, rep) with no count limit. -/
def pyReplace (s pat rep : String) : String :=
  String.mk (replaceFrom s.data.length s.data pat.data rep.data)

/-- Substring occurrence test over character lists (Python in operator). -/
def listContainsSub : List Char → List Char → Bool
  | [], pat => pat.isEmpty
  | c :: rest, pat => pat.isPrefixOf (c :: rest) || listContainsSub rest pat

/-- Python sub in s substring test. -/
def strContainsSub (s sub : String) : Bool :=
  listContainsSub s.data sub.data

/- ### content_validation.py: Hijri date normalization -/

/-- Match exactly n digits followed by a / or - separator, returning the
digit group and the remainder after the separator.  Models one greedy
alternative of the day and month pieces of the date regex, each a
\d{1,2} followed by a slash-or-dash character class. -/
def matchNDigitsSep (n : Nat) (cs : List Char) : Option (List Char × List Char) :=
  let ds := cs.take n
  if ds.length = n && ds.all Char.isDigit then
    match cs.drop n with
    | c :: rest => if c == '/' || c == '-' then some (ds, rest) else none
    | [] => none
  else none

/-- Greedy match of the year group \d{2,4}: as many digits as available up
to four, failing below two. -/
def matchYearDigits (cs : List Char) : Option (List Char × List Char) :=
  let run := cs.takeWhile Char.isDigit
  let k := min run.length 4
  if 2 ≤ k then some (cs.take k, cs.drop k) else none

/-- Consume the trailing \s*(هجري|هـ)? of the date pattern: maximal
whitespace, then the optional Arabic Hijri marker with the regex
alternation order, returning the remainder after the full match. -/
def hijriMarkerTail (cs : List Char) : List Char :=
  let rest := cs.dropWhile Char.isWhitespace
  if ['ه', 'ج', 'ر', 'ي'].isPrefixOf rest then rest.drop 4
  else if ['ه', 'ـ'].isPrefixOf rest then rest.drop 2
  else rest

/-- Attempt the date regex — day \d{1,2}, a slash-or-dash class, month
\d{1,2}, a slash-or-dash class, year \d{2,4}, then \s*(هجري|هـ)? —
at the head of the input, with the greedy backtracking order of the Python
re engine (two-digit day and month alternatives tried before one-digit).
Returns the (day, month, year) capture groups and the remainder after the
whole match.  \d and \s are modelled for the ASCII digits and common
whitespace appearing in the validated documents. -/
def matchHijriDate (cs : List Char) : Option ((List Char × List Char × List Char) × List Char) :=
  let withDay := fun (d : List Char) (r1 : List Char) =>
    let withMonth := fun (m : List Char) (r2 : List Char) =>
      (matchYearDigits r2).map (fun p => ((d, m, p.1), hijriMarkerTail p.2))
    ((matchNDigitsSep 2 r1).bind (fun p => withMonth p.1 p.2)) <|>
      ((matchNDigitsSep 1 r1).bind (fun p => withMonth p.1 p.2))
  ((matchNDigitsSep 2 cs).bind (fun p => withDay p.1 p.2)) <|>
    ((matchNDigitsSep 1 cs).bind (fun p => withDay p.1 p.2))

/-- re.findall over the text: scan left to right, at each position attempt
the date pattern, on success record the capture groups and resume after the
match, otherwise advance one character.  Fuel is instantiated with the text
length, which suffices because a match consumes at least one character. -/
def hijriScan : Nat → List Char → List (List Char × List Char × List Char)
  | 0, _ => []
  | _, [] => []
  | fuel + 1, c :: cs =>
    match matchHijriDate (c :: cs) with
    | some (g, rest) => g :: hijriScan fuel rest
    | none => hijriScan fuel cs

/-- Python int() on a digit group. -/
def digitsToNat (ds : List Char) : Nat :=
  ds.foldl (fun a c => 10 * a + (c.toNat - 48)) 0

/-- Zero-padded decimal rendering used by strftime field formatting. -/
def padNum (width n : Nat) : String :=
  let s := toString n
  if s.length < width then String.mk (List.replicate (width - s.length) '0') ++ s else s

/-- strftime %Y-%m-%d applied to a Gregorian (year, month, day). -/
def gregorianFormat (ymd : Nat × Nat × Nat) : String :=
  padNum 4 ymd.1 ++ "-" ++ padNum 2 ymd.2.1 ++ "-" ++ padNum 2 ymd.2.2

/-- convert_hijri_to_gregorian from content_validation.py.  The external
hijri_converter collaborator is the parameter hijriToGregorian, taking the
Hijri year, month and day (the int conversions of the capture groups) and
returning the Gregorian date on success and none when construction or
conversion raises.  The matches are collected once from the original text;
for each successfully converted match the code rebuilds the slash-joined
string day/month/year from the capture groups and str.replace substitutes
every occurrence of it; failed conversions leave the text unchanged. -/
def convert_hijri_to_gregorian (hijriToGregorian : Nat → Nat → Nat → Option (Nat × Nat × Nat))
    (text : String) : String :=
  let cs := text.data
  let ms := hijriScan cs.length cs
  let out := ms.foldl
    (fun t g =>
      match hijriToGregorian (digitsToNat g.2.2) (digitsToNat g.2.1) (digitsToNat g.1) with
      | some ymd =>
        let hijriStr := g.1 ++ '/' :: g.2.1 ++ '/' :: g.2.2
        replaceFrom t.length t hijriStr (gregorianFormat ymd).data
      | none => t)
    cs
  String.mk out

/- ### content_validation.py: document validation -/

/-- Fallback verdict of validate_document when the LLM completion is not
parseable JSON. -/
def contentFallbackVerdict : Json :=
  .obj [("status", .str "not validated"), ("final_decision", .str "Invalid")]

/-- validate_document from content_validation.py.  ask models llm.ask
applied to the fixed validation prompt built from the text (the prompt
string itself belongs to the external LLM contract); jsonLoads models
json.loads, returning none when parsing raises.  A raised ask exception
propagates; an unparseable completion degrades to the fallback verdict. -/
def validate_document (jsonLoads : String → Option Json) (ask : String → Except String String)
    (text : String) : Except String Json :=
  match ask text with
  | .error e => .error e
  | .ok response =>
    match jsonLoads (pyStrip response) with
    | some j => .ok j
    | none => .ok contentFallbackVerdict

/-- Observable shape of the input path as validate_content discriminates
it: whether the path is a directory, the names listed in it, the text
read_markdown_file returns per file name, whether the path suffix is .md,
the text of the path itself when it is a markdown file, and the outcome of
the create_markdown_from_input OCR extraction (Except.error when it
raises). -/
structure ContentInput where
  isDir : Bool
  entries : List String
  fileText : String → String
  suffixIsMd : Bool
  selfText : String
  extractorResult : Except String String

/-- Combined text of the directory branch of validate_content: the .md
entries of the directory, sorted by name as sorted(folder.glob("*.md"))
orders same-directory paths, read and joined with a blank-line separator. -/
def dirCombinedText (entries : List String) (fileText : String → String) : String :=
  String.intercalate "\n\n"
    ((List.insertionSort strLe (entries.filter (fun f => pyEndsWith f ".md"))).map fileText)

/-- Early-return verdict of validate_content when the extractor raises. -/
def extractionErrorVerdict (e : String) : Json :=
  .obj [("status", .str "error"), ("reason", .str ("Failed to create markdown from input: " ++ e))]

/-- validate_content from content_validation.py: resolve the input to text
(directory of markdown files, single markdown file, or OCR extraction with
an early error return), normalize Hijri dates, then run validate_document. -/
def validate_content (jsonLoads : String → Option Json) (ask : String → Except String String)
    (hijriToGregorian : Nat → Nat → Nat → Option (Nat × Nat × Nat)) (inp : ContentInput) :
    Except String Json :=
  if inp.isDir && inp.entries.any (fun f => pyEndsWith f ".md") then
    validate_document jsonLoads ask
      (convert_hijri_to_gregorian hijriToGregorian (dirCombinedText inp.entries inp.fileText))
  else if inp.suffixIsMd then
    validate_document jsonLoads ask (convert_hijri_to_gregorian hijriToGregorian inp.selfText)
  else
    match inp.extractorResult with
    | .error e => .ok (extractionErrorVerdict e)
    | .ok md => validate_document jsonLoads ask (convert_hijri_to_gregorian hijriToGregorian md)

/- ### authenticity_validation.py -/

/-- Values the pypdfium2 inspection observes inside authenticate_pdf when
it does not raise: the page count, the signature flag computed by the
per-page loop (whose internal exceptions already degrade to no signature),
the encryption flag and the metadata mapping. -/
structure PdfInfo where
  numPages : Nat
  hasSignature : Bool
  isEncrypted : Bool
  metadata : List (String × String)

/-- metadata.get(key, "") on the pypdfium2 metadata mapping. -/
def metaGet (meta : List (String × String)) (k : String) : String :=
  ((meta.find? (fun p => p.1 == k)).map (fun p => p.2)).getD ""

/-- Result dictionary of authenticate_pdf for a missing file. -/
def fileNotFoundResult : Json :=
  .obj [("status", .str "not validated"), ("reason", .str "File not found"),
    ("metadata", .obj []), ("has_signature", .bool false), ("is_encrypted", .bool false)]

/-- Result dictionary of the catch-all handler of authenticate_pdf. -/
def authErrorResult (e : String) : Json :=
  .obj [("status", .str "not validated"),
    ("reason", .str ("Error during authentication: " ++ e)),
    ("metadata", .obj []), ("has_signature", .bool false), ("is_encrypted", .bool false)]

/-- authenticate_pdf from authenticity_validation.py.  fileExists models
Path.exists; inspection models the pypdfium2 calls of the try block, with
Except.error the exception its catch-all handler converts to a not
validated result.  The validity rule is applied in the priority order of
the source: missing file, empty document, unencrypted (with or without
signature) validated, otherwise encrypted not validated. -/
def authenticate_pdf (fileExists : Bool) (inspection : Except String PdfInfo) : Json :=
  if !fileExists then fileNotFoundResult
  else
    match inspection with
    | .error e => authErrorResult e
    | .ok pdf =>
      let sr : String × String :=
        if pdf.numPages < 1 then ("not validated", "Empty document")
        else if pdf.hasSignature && !pdf.isEncrypted then
          ("validated", "Validated via digital signature and no encryption")
        else if !pdf.hasSignature && !pdf.isEncrypted then
          ("validated", "Validated via open document with no encryption")
        else ("not validated", "Document is encrypted or lacks valid signature")
      .obj [("status", .str sr.1), ("reason", .str sr.2),
        ("metadata", .obj [
          ("title", .str (metaGet pdf.metadata "title")),
          ("author", .str (metaGet pdf.metadata "author")),
          ("creator", .str (metaGet pdf.metadata "creator")),
          ("producer", .str (metaGet pdf.metadata "producer")),
          ("creation_date", .str (metaGet pdf.metadata "creationDate")),
          ("mod_date", .str (metaGet pdf.metadata "modDate")),
          ("total_pages", .num (Int.ofNat pdf.numPages)),
          ("has_signature", .bool pdf.hasSignature),
          ("is_encrypted", .bool pdf.isEncrypted)])]

/-- validate_authentication from authenticity_validation.py: run
authenticate_pdf and normalize its result into the
status/result/message envelope, always with outer status success. -/
def validate_authentication (fileExists : Bool) (inspection : Except String PdfInfo) : Json :=
  let result := authenticate_pdf fileExists inspection
  let statusReason : String × Json :=
    if (result.getD "status" .null).isStr "not validated" then
      ("not validated", result.getD "reason" (.str "Validation failed"))
    else
      ("validated", result.getD "reason" (.str "Validated"))
  .obj [("status", .str "success"),
    ("result", .obj [
      ("status", .str statusReason.1),
      ("reason", statusReason.2),
      ("metadata", result.getD "metadata" (.obj [])),
      ("has_signature", result.getD "has_signature" (.bool false)),
      ("is_encrypted", result.getD "is_encrypted" (.bool false))]),
    ("message", .str ("Authentication Validation: " ++ pyUpper statusReason.1))]

/- ### AI_supervisor.py -/

/-- DocumentValidationAgent.run_content_validation: wrap the outcome of
validate_content (Except.error when anything in the try block raises).
When validate_content returns a non-dict value (json.loads can produce
one), building the message calls .get on it and the resulting
AttributeError is caught by the same except branch. -/
def run_content_validation (outcome : Except String Json) : Json :=
  match outcome with
  | .error e =>
    .obj [("status", .str "error"), ("result", .null),
      ("message", .str ("Content Validation Error: " ++ e))]
  | .ok r =>
    match r with
    | .obj _ =>
      .obj [("status", .str "success"), ("result", r),
        ("message", .str ("Content Validation: " ++ (r.getD "status" (.str "unknown")).pyStr))]
    | _ =>
      .obj [("status", .str "error"), ("result", .null),
        ("message", .str ("Content Validation Error: " ++ attributeErrorText r))]

/-- DocumentValidationAgent.run_authentication_validation: wrap the outcome
of validate_authentication, extracting its inner result field. -/
def run_authentication_validation (outcome : Except String Json) : Json :=
  match outcome with
  | .error e =>
    .obj [("status", .str "error"), ("result", .null),
      ("message", .str ("Authentication Validation Error: " ++ e))]
  | .ok r =>
    match r with
    | .obj _ =>
      .obj [("status", .str "success"), ("result", r.getD "result" .null),
        ("message", .str ("Authentication Validation: " ++
          ((r.getD "result" (.obj [])).getD "status" (.str "unknown")).pyStr))]
    | _ =>
      .obj [("status", .str "error"), ("result", .null),
        ("message", .str ("Authentication Validation Error: " ++ attributeErrorText r))]

/-- ValidationState TypedDict of AI_supervisor.py. -/
structure ValidationState where
  input_path : String
  api_key : String
  content_validation_result : Json
  authentication_validation_result : Json
  final_decision : String
  reasoning : String

/-- content_validation_node: store the content verdict and assign (not
append) the reasoning entry. -/
def content_validation_node (outcome : Except String Json) (s : ValidationState) :
    ValidationState :=
  let result := run_content_validation outcome
  { s with
    content_validation_result := result,
    reasoning := "Content validation: " ++ (result.getD "status" .null).pyStr }

/-- authentication_validation_node: store the authenticity verdict and
append its reasoning entry. -/
def authentication_validation_node (outcome : Except String Json) (s : ValidationState) :
    ValidationState :=
  let result := run_authentication_validation outcome
  { s with
    authentication_validation_result := result,
    reasoning := s.reasoning ++ (" | Authenticity validation: " ++ (result.getD "status" .null).pyStr) }

/-- The content_valid / auth_valid boolean of decision_node: outer status
is success, the result field is truthy, and its inner status is validated. -/
def stage_valid (r : Json) : Bool :=
  (r.getD "status" .null).isStr "success" && (r.getD "result" .null).truthy
    && ((r.getD "result" (.obj [])).getD "status" .null).isStr "validated"

/-- Final decision string for passing both checks. -/
def decisionValid : String :=
  "✅ Document is VALID - Passed both content and authenticity checks"

/-- Final decision string for passing content only. -/
def decisionManualAuthFailed : String :=
  "⚠️ Document needs MANUAL REVIEW - Passed content but failed authenticity"

/-- Final decision string for passing authenticity only. -/
def decisionManualContentFailed : String :=
  "⚠️ Document needs MANUAL REVIEW - Passed authenticity but failed content"

/-- Final decision string for failing both checks. -/
def decisionInvalid : String :=
  "❌ Document is INVALID - Failed both content and authenticity checks"

/-- The four final decision strings of decision_node. -/
def decisionList : List String :=
  [decisionValid, decisionManualAuthFailed, decisionManualContentFailed, decisionInvalid]

/-- The if/elif merge of decision_node on the two stage booleans. -/
def decision_string (content_valid auth_valid : Bool) : String :=
  if content_valid && auth_valid then decisionValid
  else if content_valid && !auth_valid then decisionManualAuthFailed
  else if !content_valid && auth_valid then decisionManualContentFailed
  else decisionInvalid

/-- decision_node: compute both stage booleans from the stored verdicts,
merge them and append the final decision to the reasoning. -/
def decision_node (s : ValidationState) : ValidationState :=
  let fd := decision_string (stage_valid s.content_validation_result)
    (stage_valid s.authentication_validation_result)
  { s with
    final_decision := fd,
    reasoning := s.reasoning ++ (" | Final decision: " ++ fd) }

/-- The compiled linear workflow of create_validation_workflow: content
validation, then authenticity validation, then decision.  The two
parameters carry the stage outcomes the agent wrappers receive. -/
def runValidationWorkflow (contentOutcome authOutcome : Except String Json)
    (s : ValidationState) : ValidationState :=
  decision_node (authentication_validation_node authOutcome (content_validation_node contentOutcome s))

/-- Initial state built by run_document_validation. -/
def initialState (api_key input_path : String) : ValidationState :=
  { input_path := pyStrip input_path
    api_key := api_key
    content_validation_result := .obj []
    authentication_validation_result := .obj []
    final_decision := ""
    reasoning := "Starting validation process" }

/- ### Predicates written from the claim wording, for comparison -/

/-- The result field of a verdict is present and non-null. -/
def result_present (v : Json) : Bool :=
  match v.lookup "result" with
  | some .null => false
  | some _ => true
  | none => false

/-- The result field of a verdict is null or absent. -/
def result_null_or_absent (v : Json) : Bool :=
  match v.lookup "result" with
  | none => true
  | some .null => true
  | some _ => false

/-- The claim wording of content_valid and auth_valid: outer status is
success, the result is present, and its inner status is validated. -/
def claim_stage_valid (v : Json) : Bool :=
  (v.getD "status" .null).isStr "success" && result_present v
    && ((v.getD "result" (.obj [])).getD "status" .null).isStr "validated"

/-- Well-formed stage verdicts: a dict whose result field, when bound, is
None or a dict.  Every verdict the two wrappers produce has this shape;
on it Python .get chains are total. -/
def wfVerdict (v : Json) : Bool :=
  match v with
  | .obj _ =>
    match v.lookup "result" with
    | none => true
    | some .null => true
    | some (.obj _) => true
    | some _ => false
  | _ => false

/-- The two-level status invariant of stage verdicts: status error implies
a null or absent result, status success implies a present result. -/
def verdict_result_invariant (v : Json) : Bool :=
  (if (v.getD "status" .null).isStr "error" then result_null_or_absent v else true)
    && (if (v.getD "status" .null).isStr "success" then result_present v else true)

/-- Hijri to Gregorian converter used for concrete instances: defined (with
the documented Umm al-Qura value) exactly on 15 Jumada al-Thani 1445 and
failing elsewhere, so that both a successful and a failing conversion can
be exercised. -/
def testHijriConv (y m d : Nat) : Option (Nat × Nat × Nat) :=
  if y == 1445 && m == 6 && d == 15 then some (2023, 12, 28) else none

/-- File contents of the concrete two-page directory instances. -/
def testPageText (n : String) : String :=
  if n == "page1.md" then "Page one text" else "Page two text"

/-- Whether a value is a non-empty dict, the shape of every inner
authenticity result. -/
def isNonEmptyObj : Json → Bool
  | .obj (_ :: _) => true
  | _ => false

/- ### Helper lemmas -/

theorem charToNat_inj {a b : Char} (h : a.toNat = b.toNat) : a = b := by
  cases a with
  | mk v1 h1 =>
    cases b with
    | mk v2 h2 =>
      simp only [Char.toNat] at h
      congr 1
      cases v1
      cases v2
      simp only [UInt32.toNat] at h
      congr 1
      exact BitVec.toNat_injective h

theorem listLeB_total (as bs : List Char) : listLeB as bs = true ∨ listLeB bs as = true := by
  induction as generalizing bs with
  | nil => exact Or.inl rfl
  | cons a as ih =>
    cases bs with
    | nil => exact Or.inr rfl
    | cons b bs =>
      by_cases hab : a.toNat = b.toNat
      · rcases ih bs with h | h
        · exact Or.inl (by simp [listLeB, hab, h])
        · exact Or.inr (by simp [listLeB, hab.symm, h])
      · by_cases hlt : a.toNat < b.toNat
        · exact Or.inl (by simp [listLeB, hab, hlt])
        · refine Or.inr ?_
          have hba : ¬ b.toNat = a.toNat := fun h2 => hab h2.symm
          have hgt : b.toNat < a.toNat := by omega
          simp [listLeB, hba, hgt]

theorem listLeB_trans (as bs cs : List Char) (h1 : listLeB as bs = true)
    (h2 : listLeB bs cs = true) : listLeB as cs = true := by
  induction as generalizing bs cs with
  | nil => rfl
  | cons a as ih =>
    cases bs with
    | nil => simp [listLeB] at h1
    | cons b bs =>
      cases cs with
      | nil => simp [listLeB] at h2
      | cons c cs =>
        simp only [listLeB] at h1 h2 ⊢
        by_cases hab : a.toNat = b.toNat <;> by_cases hbc : b.toNat = c.toNat
        · rw [if_pos hab] at h1
          rw [if_pos hbc] at h2
          rw [if_pos (hab.trans hbc)]
          exact ih bs cs h1 h2
        · rw [if_neg hbc] at h2
          have hac : ¬ a.toNat = c.toNat := by simp at h2; omega
          rw [if_neg hac]
          simp at h2 ⊢
          omega
        · rw [if_neg hab] at h1
          have hac : ¬ a.toNat = c.toNat := by simp at h1; omega
          rw [if_neg hac]
          simp at h1 ⊢
          omega
        · rw [if_neg hab] at h1
          rw [if_neg hbc] at h2
          have hac : ¬ a.toNat = c.toNat := by simp at h1 h2; omega
          rw [if_neg hac]
          simp at h1 h2 ⊢
          omega

theorem listLeB_antisymm (as bs : List Char) (h1 : listLeB as bs = true)
    (h2 : listLeB bs as = true) : as = bs := by
  induction as generalizing bs with
  | nil =>
    cases bs with
    | nil => rfl
    | cons b bs => simp [listLeB] at h2
  | cons a as ih =>
    cases bs with
    | nil => simp [listLeB] at h1
    | cons b bs =>
      simp only [listLeB] at h1 h2
      by_cases hab : a.toNat = b.toNat
      · rw [if_pos hab] at h1
        rw [if_pos hab.symm] at h2
        rw [charToNat_inj hab, ih bs h1 h2]
      · have hba : ¬ b.toNat = a.toNat := fun h3 => hab h3.symm
        rw [if_neg hab] at h1
        rw [if_neg hba] at h2
        simp at h1 h2
        omega

instance : IsTotal String strLe := ⟨fun a b => listLeB_total a.data b.data⟩

instance : IsTrans String strLe := ⟨fun a b c => listLeB_trans a.data b.data c.data⟩

instance : IsAntisymm String strLe :=
  ⟨fun a b h1 h2 => by
    cases a
    cases b
    exact congrArg String.mk (listLeB_antisymm _ _ h1 h2)⟩

theorem insertionSort_strLe_perm_eq (l1 l2 : List String) (h : l1.Perm l2) :
    List.insertionSort strLe l1 = List.insertionSort strLe l2 :=
  @List.eq_of_perm_of_sorted String strLe _ _ _
    ((List.perm_insertionSort strLe l1).trans (h.trans (List.perm_insertionSort strLe l2).symm))
    (List.sorted_insertionSort strLe l1)
    (List.sorted_insertionSort strLe l2)

theorem decision_string_mem (cv av : Bool) : decision_string cv av ∈ decisionList := by
  cases cv <;> cases av <;> simp [decision_string, decisionList]

theorem run_content_validation_invariant (outcome : Except String Json) :
    verdict_result_invariant (run_content_validation outcome) = true := by
  cases outcome with
  | error e => rfl
  | ok r => cases r <;> rfl

theorem run_auth_wrapped_invariant (ex : Bool) (insp : Except String PdfInfo) :
    verdict_result_invariant
      (run_authentication_validation (.ok (validate_authentication ex insp))) = true := by
  cases ex with
  | false =>
    cases insp with
    | error e => rfl
    | ok pdf =>
      obtain ⟨n, sig, enc, meta⟩ := pdf
      rfl
  | true =>
    cases insp with
    | error e => rfl
    | ok pdf =>
      obtain ⟨n, sig, enc, meta⟩ := pdf
      cases n with
      | zero => rfl
      | succ m => cases sig <;> cases enc <;> rfl

theorem runWorkflow_final_decision (co ao : Except String Json) (s : ValidationState) :
    (runValidationWorkflow co ao s).final_decision
      = decision_string (stage_valid (run_content_validation co))
          (stage_valid (run_authentication_validation ao)) := rfl

theorem stage_valid_eq_claim (v : Json) (h : wfVerdict v = true) :
    stage_valid v = claim_stage_valid v := by
  cases v with
  | obj entries =>
    simp only [stage_valid, claim_stage_valid, Json.getD, result_present]
    cases hres : Json.lookup (.obj entries) "result" with
    | none => simp [Json.truthy, Json.lookup, Json.isStr]
    | some r =>
      simp only [wfVerdict, hres] at h
      cases r with
      | null => simp [Json.truthy, Json.lookup, Json.isStr]
      | obj kvs =>
        cases kvs with
        | nil => simp [Json.truthy, Json.lookup, Json.isStr]
        | cons kv kvs => simp [Json.truthy]
      | bool b => simp at h
      | num n => simp at h
      | str t => simp at h
      | arr elems => simp at h
  | null => simp [wfVerdict] at h
  | bool b => simp [wfVerdict] at h
  | num n => simp [wfVerdict] at h
  | str t => simp [wfVerdict] at h
  | arr elems => simp [wfVerdict] at h

/- ### Claim theorems -/

/-- C1: For every pair of stage verdicts (well formed, as both wrappers
guarantee), with content_valid and auth_valid defined as outer status
success, result present, and inner status validated, decision_node
produces exactly the 2x2 table — both valid gives VALID, only content
gives MANUAL REVIEW for failed authenticity, only authenticity gives
MANUAL REVIEW for failed content, neither gives INVALID — and no final
decision outside these four strings is ever produced. -/
theorem c1_decision_table (s : ValidationState)
    (hc : wfVerdict s.content_validation_result = true)
    (ha : wfVerdict s.authentication_validation_result = true) :
    (decision_node s).final_decision =
      (if claim_stage_valid s.content_validation_result then
        (if claim_stage_valid s.authentication_validation_result then decisionValid
          else decisionManualAuthFailed)
        else
        (if claim_stage_valid s.authentication_validation_result then decisionManualContentFailed
          else decisionInvalid))
      ∧ (decision_node s).final_decision ∈ decisionList := by
  constructor
  · show decision_string (stage_valid s.content_validation_result)
      (stage_valid s.authentication_validation_result) = _
    rw [stage_valid_eq_claim _ hc, stage_valid_eq_claim _ ha]
    cases claim_stage_valid s.content_validation_result <;>
      cases claim_stage_valid s.authentication_validation_result <;>
      simp [decision_string]
  · exact decision_string_mem _ _

/-- Closed instance of C1 at a concrete pair of verdicts: validated
content and an errored authenticity stage merge to the manual review
decision for failed authenticity. -/
theorem c1_decision_table_witness :
    wfVerdict (Json.obj [("status", Json.str "success"),
        ("result", Json.obj [("status", Json.str "validated")]), ("message", Json.str "m")]) = true
      ∧ (decision_node
          ⟨"p", "k",
            Json.obj [("status", Json.str "success"),
              ("result", Json.obj [("status", Json.str "validated")]), ("message", Json.str "m")],
            Json.obj [("status", Json.str "error"), ("result", Json.null), ("message", Json.str "m")],
            "", "r"⟩).final_decision = decisionManualAuthFailed := by
  refine ⟨rfl, ?_⟩
  have h := c1_decision_table
    ⟨"p", "k",
      Json.obj [("status", Json.str "success"),
        ("result", Json.obj [("status", Json.str "validated")]), ("message", Json.str "m")],
      Json.obj [("status", Json.str "error"), ("result", Json.null), ("message", Json.str "m")],
      "", "r"⟩ rfl rfl
  rw [h.1]
  rfl

/-- C2: the validity rule of authenticate_pdf in priority order — a
missing file yields not validated with reason File not found whatever the
inspection would give; a zero page document yields not validated with
reason Empty document; a non-empty unencrypted document is validated with
or without a signature; a non-empty encrypted document is not validated
with the combined reason regardless of signature presence. -/
theorem c2_validity_rule (insp : Except String PdfInfo) (n : Nat) (sig enc : Bool)
    (meta : List (String × String)) :
    (fieldStr (authenticate_pdf false insp) "status" = some "not validated"
      ∧ fieldStr (authenticate_pdf false insp) "reason" = some "File not found")
    ∧ (fieldStr (authenticate_pdf true (.ok ⟨0, sig, enc, meta⟩)) "status" = some "not validated"
      ∧ fieldStr (authenticate_pdf true (.ok ⟨0, sig, enc, meta⟩)) "reason" = some "Empty document")
    ∧ fieldStr (authenticate_pdf true (.ok ⟨n + 1, sig, false, meta⟩)) "status" = some "validated"
    ∧ (fieldStr (authenticate_pdf true (.ok ⟨n + 1, sig, true, meta⟩)) "status" = some "not validated"
      ∧ fieldStr (authenticate_pdf true (.ok ⟨n + 1, sig, true, meta⟩)) "reason"
        = some "Document is encrypted or lacks valid signature") := by
  refine ⟨⟨rfl, rfl⟩, ⟨rfl, rfl⟩, ?_, ?_, ?_⟩ <;> cases sig <;> rfl

/-- C3: for a non-existent input path validate_authentication returns —
rather than raising — an envelope whose inner verdict has status not
validated with reason File not found, whatever the inspection outcome
parameter is. -/
theorem c3_missing_file (insp : Except String PdfInfo) :
    fieldStr ((validate_authentication false insp).getD "result" .null) "status"
        = some "not validated"
      ∧ fieldStr ((validate_authentication false insp).getD "result" .null) "reason"
        = some "File not found"
      ∧ fieldStr (validate_authentication false insp) "status" = some "success" :=
  ⟨rfl, rfl, rfl⟩

/-- C4: whenever json.loads fails on the stripped LLM completion,
validate_document returns (rather than raises) the defined fallback
verdict with status not validated and final_decision Invalid, and a
pipeline run whose content stage carries this degraded verdict still
reaches one of the four final decisions. -/
theorem c4_unparseable_json (jsonLoads : String → Option Json) (resp text : String)
    (authOutcome : Except String Json) (k p : String)
    (h : jsonLoads (pyStrip resp) = none) :
    validate_document jsonLoads (fun _ => .ok resp) text = .ok contentFallbackVerdict
      ∧ fieldStr contentFallbackVerdict "status" = some "not validated"
      ∧ fieldStr contentFallbackVerdict "final_decision" = some "Invalid"
      ∧ (runValidationWorkflow (.ok contentFallbackVerdict) authOutcome
          (initialState k p)).final_decision ∈ decisionList := by
  refine ⟨?_, rfl, rfl, ?_⟩
  · simp only [validate_document, h]
  · rw [runWorkflow_final_decision]
    exact decision_string_mem _ _

/-- Closed instance of C4: a parser failing on a concrete non-JSON
completion produces the fallback verdict and the pipeline still decides. -/
theorem c4_unparseable_json_witness :
    validate_document (fun _ => none) (fun _ => Except.ok "not json at all") "text"
        = .ok contentFallbackVerdict
      ∧ fieldStr contentFallbackVerdict "status" = some "not validated"
      ∧ fieldStr contentFallbackVerdict "final_decision" = some "Invalid"
      ∧ (runValidationWorkflow (.ok contentFallbackVerdict) (.ok (Json.obj []))
          (initialState "k" "p")).final_decision ∈ decisionList :=
  c4_unparseable_json (fun _ => none) "not json at all" "text" (.ok (Json.obj [])) "k" "p" rfl

/-- C5: the combined text of the directory branch is the text of the .md
entries sorted by file name joined with a blank-line separator: it is
invariant under any permutation of the directory listing order, it is the
text validate_content sends on (after calendar normalization) for any
directory input with at least one .md entry, and on the concrete listing
holding page2.md and page1.md it equals page1 text, separator, page2 text
regardless of the listing (creation) order. -/
theorem c5_sorted_directory_text (names names2 : List String) (fileText : String → String)
    (jsonLoads : String → Option Json) (ask : String → Except String String)
    (hijriToGregorian : Nat → Nat → Nat → Option (Nat × Nat × Nat))
    (suffixMd : Bool) (selfText : String) (extractor : Except String String)
    (hperm : names.Perm names2)
    (hmd : names.any (fun f => pyEndsWith f ".md") = true) :
    dirCombinedText names fileText = dirCombinedText names2 fileText
      ∧ validate_content jsonLoads ask hijriToGregorian
          ⟨true, names, fileText, suffixMd, selfText, extractor⟩
        = validate_document jsonLoads ask
            (convert_hijri_to_gregorian hijriToGregorian (dirCombinedText names fileText))
      ∧ dirCombinedText ["page2.md", "page1.md"] testPageText
        = testPageText "page1.md" ++ "\n\n" ++ testPageText "page2.md" := by
  refine ⟨?_, ?_, by decide⟩
  · unfold dirCombinedText
    rw [insertionSort_strLe_perm_eq _ _ (hperm.filter _)]
  · unfold validate_content
    simp [hmd]

/-- Closed instance of C5: the two listing orders of a two-page directory
produce the same combined text, equal to page1 text, blank line, page2
text. -/
theorem c5_sorted_directory_text_witness :
    dirCombinedText ["page2.md", "page1.md"] testPageText
        = dirCombinedText ["page1.md", "page2.md"] testPageText
      ∧ validate_content (fun _ => none) (fun _ => Except.ok "resp") testHijriConv
          ⟨true, ["page2.md", "page1.md"], testPageText, false, "", .ok ""⟩
        = validate_document (fun _ => none) (fun _ => Except.ok "resp")
            (convert_hijri_to_gregorian testHijriConv
              (dirCombinedText ["page2.md", "page1.md"] testPageText))
      ∧ dirCombinedText ["page2.md", "page1.md"] testPageText
        = testPageText "page1.md" ++ "\n\n" ++ testPageText "page2.md" :=
  c5_sorted_directory_text ["page2.md", "page1.md"] ["page1.md", "page2.md"] testPageText
    (fun _ => none) (fun _ => Except.ok "resp") testHijriConv false "" (.ok "")
    (by decide) (by decide)

/-- C6 counterexample: on the dash-separated date 15-6-1445 followed by
the Hijri marker, the scan matches (capture groups 15, 6, 1445) and the
conversion succeeds, yet convert_hijri_to_gregorian leaves the text
entirely unchanged — no Gregorian date appears in the output — because
the replacement target is rebuilt with slashes, contradicting the claim
that the literal matched substring of every successfully converted match
is replaced. -/
theorem c6_counterexample :
    hijriScan ("15-6-1445 هـ".data.length) ("15-6-1445 هـ".data)
        = [(['1', '5'], ['6'], ['1', '4', '4', '5'])]
      ∧ testHijriConv 1445 6 15 = some (2023, 12, 28)
      ∧ convert_hijri_to_gregorian testHijriConv "15-6-1445 هـ" = "15-6-1445 هـ"
      ∧ strContainsSub (convert_hijri_to_gregorian testHijriConv "15-6-1445 هـ") "2023-12-28"
        = false := by
  exact ⟨by decide, by decide, by decide, by decide⟩

/-- C6 amended: for each match the code rebuilds the slash-joined string
day/month/year from the capture groups and, when conversion succeeds,
replaces every occurrence of that string (so a slash-separated date is
replaced in place with the marker left behind, while a dash-separated
match is left unmodified); when every conversion fails the text is
returned unchanged and no exception escapes. -/
theorem c6_amended (hijriToGregorian : Nat → Nat → Nat → Option (Nat × Nat × Nat)) (text : String)
    (hfail : ∀ g ∈ hijriScan text.data.length text.data,
      hijriToGregorian (digitsToNat g.2.2) (digitsToNat g.2.1) (digitsToNat g.1) = none) :
    convert_hijri_to_gregorian hijriToGregorian text = text
      ∧ convert_hijri_to_gregorian testHijriConv "15/6/1445 هـ" = "2023-12-28 هـ"
      ∧ convert_hijri_to_gregorian testHijriConv "15-6-1445 هـ" = "15-6-1445 هـ"
      ∧ convert_hijri_to_gregorian testHijriConv "Date: 31/13/9999 هـ end"
        = "Date: 31/13/9999 هـ end" := by
  refine ⟨?_, by decide, by decide, by decide⟩
  unfold convert_hijri_to_gregorian
  have key : ∀ (ms : List (List Char × List Char × List Char)) (t : List Char),
      (∀ g ∈ ms, hijriToGregorian (digitsToNat g.2.2) (digitsToNat g.2.1) (digitsToNat g.1) = none) →
      ms.foldl
        (fun t g =>
          match hijriToGregorian (digitsToNat g.2.2) (digitsToNat g.2.1) (digitsToNat g.1) with
          | some ymd =>
            replaceFrom t.length t (g.1 ++ '/' :: g.2.1 ++ '/' :: g.2.2) (gregorianFormat ymd).data
          | none => t) t = t := by
    intro ms
    induction ms with
    | nil => intro t _; rfl
    | cons g ms ih =>
      intro t hall
      have hg := hall g (List.mem_cons_self g ms)
      simp only [List.foldl_cons, hg]
      exact ih t (fun g2 hg2 => hall g2 (List.mem_cons_of_mem g hg2))
  simp only []
  rw [key _ _ hfail]

/-- Closed instance of the amended C6 on concrete texts, with a converter
failing everywhere for the general part. -/
theorem c6_amended_witness :
    convert_hijri_to_gregorian (fun _ _ _ => none) "1/2/34" = "1/2/34"
      ∧ convert_hijri_to_gregorian testHijriConv "15/6/1445 هـ" = "2023-12-28 هـ"
      ∧ convert_hijri_to_gregorian testHijriConv "15-6-1445 هـ" = "15-6-1445 هـ"
      ∧ convert_hijri_to_gregorian testHijriConv "Date: 31/13/9999 هـ end"
        = "Date: 31/13/9999 هـ end" :=
  c6_amended (fun _ _ _ => none) "1/2/34" (fun _ _ => rfl)

/-- C7 counterexample: the initial run state carries the reasoning entry
Starting validation process, and the content stage assigns rather than
appends, so after the content stage (and in the final pipeline log) that
earlier entry has been removed — the log is not append-only across every
stage. -/
theorem c7_counterexample :
    (initialState "key" "doc.pdf").reasoning = "Starting validation process"
      ∧ (content_validation_node (.error "boom") (initialState "key" "doc.pdf")).reasoning
        = "Content validation: error"
      ∧ strContainsSub
          (content_validation_node (.error "boom") (initialState "key" "doc.pdf")).reasoning
          "Starting validation process" = false
      ∧ strContainsSub
          (runValidationWorkflow (.error "boom") (.error "x") (initialState "key" "doc.pdf")).reasoning
          "Starting validation process" = false := by
  exact ⟨rfl, by decide, by decide, by decide⟩

/-- C7 amended: from the content stage onward the reasoning log is
append-only and ordered — the authenticity and decision stages extend the
previous log with a suffix, and the final log is the content entry, then
the authenticity entry, then the final decision entry — but the content
stage overwrites the initial reasoning entry rather than appending to it. -/
theorem c7_amended (contentOutcome authOutcome : Except String Json) (s : ValidationState) :
    (∃ t, (authentication_validation_node authOutcome s).reasoning = s.reasoning ++ t)
      ∧ (∃ t, (decision_node s).reasoning = s.reasoning ++ t)
      ∧ (∃ a b c, (runValidationWorkflow contentOutcome authOutcome s).reasoning
          = "Content validation: " ++ a ++ (" | Authenticity validation: " ++ b)
            ++ (" | Final decision: " ++ c)) := by
  refine ⟨⟨_, rfl⟩, ⟨_, rfl⟩, ⟨_, _, _, rfl⟩⟩

/-- C8: every verdict either wrapper produces — from any outcome of
validate_content, from any outcome of validate_authentication, or from a
raised exception — satisfies the two-level status invariant: outer status
error implies a null or absent result, outer status success implies a
present result. -/
theorem c8_two_level_status (jsonLoads : String → Option Json) (ask : String → Except String String)
    (hijriToGregorian : Nat → Nat → Nat → Option (Nat × Nat × Nat)) (inp : ContentInput)
    (e1 e2 : String) (ex : Bool) (insp : Except String PdfInfo) :
    verdict_result_invariant
        (run_content_validation (validate_content jsonLoads ask hijriToGregorian inp)) = true
      ∧ verdict_result_invariant (run_content_validation (.error e1)) = true
      ∧ verdict_result_invariant
          (run_authentication_validation (.ok (validate_authentication ex insp))) = true
      ∧ verdict_result_invariant (run_authentication_validation (.error e2)) = true :=
  ⟨run_content_validation_invariant _, rfl, run_auth_wrapped_invariant ex insp, rfl⟩

/-- C9: for a non-directory, non-markdown input on which the extractor
raises, validate_content returns (rather than raises) a verdict with
status error carrying the failure reason and no result field, and the
pipeline still runs the authenticity stage and reaches one of the four
final decisions whatever the authenticity outcome is. -/
theorem c9_extractor_failure (e : String) (entries : List String) (fileText : String → String)
    (selfText : String) (jsonLoads : String → Option Json) (ask : String → Except String String)
    (hijriToGregorian : Nat → Nat → Nat → Option (Nat × Nat × Nat))
    (authOutcome : Except String Json) (k p : String) :
    validate_content jsonLoads ask hijriToGregorian
        ⟨false, entries, fileText, false, selfText, .error e⟩
      = .ok (extractionErrorVerdict e)
      ∧ fieldStr (extractionErrorVerdict e) "status" = some "error"
      ∧ fieldStr (extractionErrorVerdict e) "reason"
        = some ("Failed to create markdown from input: " ++ e)
      ∧ (extractionErrorVerdict e).lookup "result" = none
      ∧ (runValidationWorkflow (.ok (extractionErrorVerdict e)) authOutcome
          (initialState k p)).authentication_validation_result
        = run_authentication_validation authOutcome
      ∧ (runValidationWorkflow (.ok (extractionErrorVerdict e)) authOutcome
          (initialState k p)).final_decision ∈ decisionList := by
  refine ⟨rfl, rfl, rfl, rfl, rfl, ?_⟩
  rw [runWorkflow_final_decision]
  exact decision_string_mem _ _

/-- C10: validate_authentication always returns an envelope with outer
status success and a non-empty dict as inner result, for every inspection
outcome of authenticate_pdf; an outer status error can only come from the
supervisor wrapper catching an exception; and therefore the auth_valid
boolean of the decision stage on the wrapped verdict coincides with the
inner result status being validated. -/
theorem c10_wrapper_invariants (ex : Bool) (insp : Except String PdfInfo) (e : String) :
    fieldStr (validate_authentication ex insp) "status" = some "success"
      ∧ isNonEmptyObj ((validate_authentication ex insp).getD "result" .null) = true
      ∧ stage_valid (run_authentication_validation (.ok (validate_authentication ex insp)))
        = (((validate_authentication ex insp).getD "result" (.obj [])).getD "status" .null).isStr
            "validated"
      ∧ fieldStr (run_authentication_validation (.error e)) "status" = some "error" := by
  cases ex with
  | false =>
    cases insp with
    | error e2 => exact ⟨rfl, rfl, rfl, rfl⟩
    | ok pdf =>
      obtain ⟨n, sig, enc, meta⟩ := pdf
      exact ⟨rfl, rfl, rfl, rfl⟩
  | true =>
    cases insp with
    | error e2 => exact ⟨rfl, rfl, rfl, rfl⟩
    | ok pdf =>
      obtain ⟨n, sig, enc, meta⟩ := pdf
      cases n with
      | zero => exact ⟨rfl, rfl, rfl, rfl⟩
      | succ m => cases sig <;> cases enc <;> exact ⟨rfl, rfl, rfl, rfl⟩
